import Mathlib

/-!
Verification development for the sidecar supervisor of
`src/desktop/src-tauri/src/lib.rs` (open-orchestra desktop shell).

The Rust source is shallowly embedded below: pure helper functions become
Lean functions; the environment, the filesystem, the network listener
state, the ephemeral-port allocator and the probe outcomes become explicit
parameters; the readiness-wait `loop` and the log-eviction `while` loop
become fuel-bounded recursions; wall-clock time is modelled discretely as
the sum of the sleeps and probe durations the loop performs (in
milliseconds).  Machine integers (`u32`, `u16`, `usize`) are modelled as
`Nat`, with the `port as u16` cast made explicit as `% 65536`.
-/

namespace OpenOrchestra

/-- `const MAX_LOG_ENTRIES: usize = 200;` -/
def MAX_LOG_ENTRIES : Nat := 200

/-- `const DEFAULT_SKILLS_PORT: u32 = 4097;` -/
def DEFAULT_SKILLS_PORT : Nat := 4097

/-- The fixed poll / grace delay `Duration::from_millis(10)` used in the
readiness wait loop, in milliseconds. -/
def POLL_MS : Nat := 10

/-- The readiness timeout `Duration::from_secs(7)`, in milliseconds. -/
def TIMEOUT_MS : Nat := 7000

/-! ## ReadinessProbe (`is_server_running`) -/

/-- The port actually probed by `is_server_running`: the `u32` port is
truncated by the `port as u16` cast when the `SocketAddr` is built. -/
def probedPort (port : Nat) : Nat := port % 65536

/-- `is_server_running(port)`: attempt a TCP connection to
`127.0.0.1:(port as u16)`.  `net p` says whether a listener accepts
connections on the 16-bit port `p`. -/
def isServerRunning (net : Nat → Bool) (port : Nat) : Bool :=
  net (probedPort port)

/-- The `--port={port}` argument handed to the spawned child in
`spawn_sidecar`; it carries the full `u32` value, untruncated. -/
def sidecarPortArg (port : Nat) : String :=
  "--port=" ++ toString port

/-! ## LogCollector (the output pump of `spawn_sidecar`) -/

/-- Output stream of a `CommandEvent` handled by the pump. -/
inductive OutStream where
  | stdout
  | stderr
deriving DecidableEq

/-- The tag prepended by the pump: `format!("[STDOUT] {}", line)` /
`format!("[STDERR] {}", line)`. -/
def tagLine : OutStream → String → String
  | .stdout, line => "[STDOUT] " ++ line
  | .stderr, line => "[STDERR] " ++ line

/-- The eviction loop `while logs.len() > MAX_LOG_ENTRIES { logs.pop_front(); }`.
The `VecDeque` is modelled as a list whose head is the front; each
iteration removes the front element, so `logs.len()` iterations of fuel
always suffice. -/
def evictLoop : Nat → List String → List String
  | 0, logs => logs
  | fuel + 1, logs =>
    if logs.length > MAX_LOG_ENTRIES then evictLoop fuel logs.tail else logs

/-- One pump step: `logs.push_back(entry)` followed by the eviction loop. -/
def pumpAppend (logs : List String) (entry : String) : List String :=
  evictLoop (logs ++ [entry]).length (logs ++ [entry])

/-- The pump applied to a whole sequence of emitted entries, starting from
the empty collection installed by `app.manage(LogState(...))`. -/
def pumpRun (entries : List String) : List String :=
  entries.foldl pumpAppend []

/-! ## Environment and filesystem -/

/-- `str::trim`: strip leading and trailing whitespace.  Modelled over the
character list with ASCII whitespace (the Unicode-only whitespace code
points are not modelled). -/
def trimStr (s : String) : String :=
  String.mk
    (((s.data.dropWhile Char.isWhitespace).reverse.dropWhile
        Char.isWhitespace).reverse)

/-- `env_string(key)`: read the variable, trim it, and drop it when the
trimmed value is empty.  `env` is the process environment
(`std::env::var`, `none` for unset or non-unicode). -/
def envString (env : String → Option String) (key : String) : Option String :=
  match env key with
  | none => none
  | some v =>
    let t := trimStr v
    if t = "" then none else some t

/-- `env_port(key)`: `env_string(key)` parsed as a `u32`. -/
def envPort (env : String → Option String) (key : String) : Option Nat :=
  (envString env key).bind (fun v => v.toNat?)

/-- The parts of the filesystem the config-override builder consults:
which paths are existing regular files (`Path::is_file`), the current
working directory's ancestor chain (`std::env::current_dir()` followed by
`.ancestors()`, the directory itself first, `none` when `current_dir`
fails), and `Path::canonicalize` (`none` on failure). -/
structure Fs where
  isFile : String → Bool
  currentDirAncestors : Option (List String)
  canonicalize : String → Option String

/-- `Path::join` modelled on string paths. -/
def pathJoin (a b : String) : String := a ++ "/" ++ b

/-- `ancestor.join("orchestra").join("dist").join("index.js")`. -/
def distPath (d : String) : String :=
  pathJoin (pathJoin (pathJoin d "orchestra") "dist") "index.js"

/-- `ancestor.join("orchestra").join("src").join("index.ts")`. -/
def srcPath (d : String) : String :=
  pathJoin (pathJoin (pathJoin d "orchestra") "src") "index.ts"

/-- The body of the ancestor loop of `find_orchestrator_plugin_path`:
at one ancestor, prefer the built artifact over the source artifact. -/
def ancestorProbe (fs : Fs) (d : String) : Option String :=
  if fs.isFile (distPath d) then some (distPath d)
  else if fs.isFile (srcPath d) then some (srcPath d)
  else none

/-- `find_orchestrator_plugin_path()`: an explicit path override that names
an existing file wins; otherwise the first 6 ancestors of the current
working directory are probed in order. -/
def findOrchestratorPluginPath (env : String → Option String) (fs : Fs) :
    Option String :=
  let fallback :=
    match fs.currentDirAncestors with
    | none => none
    | some dirs => (dirs.take 6).findSome? (ancestorProbe fs)
  match envString env "OPENCODE_DESKTOP_PLUGIN_PATH" with
  | some v => if fs.isFile v then some v else fallback
  | none => fallback

/-- `path_to_file_url` (non-Windows branch): canonicalize, then prefix
`file://`. -/
def pathToFileUrl (fs : Fs) (path : String) : Option String :=
  (fs.canonicalize path).map (fun p => "file://" ++ p)

/-- `serde_json::to_string(&json!(\x7b "plugin": [plugin_url] \x7d))`.
JSON string escaping is omitted: the URLs produced above contain none of
the escaped characters. -/
def configPayload (url : String) : String :=
  "\x7b\"plugin\":[\"" ++ url ++ "\"]\x7d"

/-- `build_opencode_config_content()`. -/
def buildOpencodeConfigContent (env : String → Option String) (fs : Fs) :
    Option String :=
  if (envString env "OPENCODE_CONFIG_CONTENT").isSome then none
  else
    match findOrchestratorPluginPath env fs with
    | none => none
    | some pluginPath =>
      match pathToFileUrl fs pluginPath with
      | none => none
      | some url => some (configPayload url)

/-! ## PortResolver -/

/-- The retry loop
`skills_port = find_free_port(); while Some(skills_port) == port { skills_port = find_free_port(); }`.
`alloc k` is the result of the `k`-th call to `find_free_port` overall;
the returned pair carries the chosen port and the next allocator index.
`none` means the fuel ran out (the Rust loop would still be spinning). -/
def allocUntilNe (alloc : Nat → Nat) (port : Option Nat) :
    Nat → Nat → Option (Nat × Nat)
  | 0, _ => none
  | fuel + 1, k =>
    let v := alloc k
    if some v == port then allocUntilNe alloc port fuel (k + 1)
    else some (v, k + 1)

/-- Skills-port resolution (lines 322–336 of the source): an override is
used unconditionally; otherwise, when a spawn was decided, the default is
kept unless it collides with the primary port or with an already-listening
service, in which case fresh ephemeral ports are drawn until one differs
from the primary port. -/
def resolveSkillsPort (skillsOv : Option Nat) (net : Nat → Bool)
    (alloc : Nat → Nat) (k : Nat) (port : Option Nat) (shouldSpawn : Bool)
    (fuel : Nat) : Option (Nat × Nat) :=
  if shouldSpawn && skillsOv.isNone then
    if (port == some DEFAULT_SKILLS_PORT)
        || isServerRunning net DEFAULT_SKILLS_PORT then
      allocUntilNe alloc port fuel k
    else some (DEFAULT_SKILLS_PORT, k)
  else some (skillsOv.getD DEFAULT_SKILLS_PORT, k)

/-! ## ProcessSupervisor (the async setup task of `run`) -/

/-- The inputs of one launch: the environment overrides (each `Option`
merges the compile-time `option_env!` and runtime `env_port`/`env_string`
lookups, first-some), the listener state at startup (`net`, by 16-bit
port), the ephemeral-port allocator stream, and the behaviour of the
readiness probes during the wait loop (`probeDur i` the duration in ms of
the `i`-th probe attempt, `readyAt i` its outcome). -/
structure LaunchEnv where
  baseOverride : Option String
  skillsBaseOverride : Option String
  portOverride : Option Nat
  skillsPortOverride : Option Nat
  net : Nat → Bool
  alloc : Nat → Nat
  probeDur : Nat → Nat
  readyAt : Nat → Bool

/-- `get_sidecar_port()` under the `base_override` guard: absent when a
base-URL override is present, otherwise the port override or a fresh
ephemeral port. -/
def resolvedPrimaryPort (env : LaunchEnv) : Option Nat :=
  if env.baseOverride.isSome then none
  else some (env.portOverride.getD (env.alloc 0))

/-- Index of the next unused `find_free_port` result after primary-port
resolution (one allocation is consumed only when no override decided the
primary port). -/
def allocIndexAfterPrimary (env : LaunchEnv) : Nat :=
  if env.baseOverride.isSome then 0
  else if env.portOverride.isSome then 0 else 1

/-- The ownership token for the spawned child, recording the arguments the
spawn was performed with. -/
structure SidecarHandle where
  port : Nat
  skillsPort : Nat
deriving DecidableEq

/-- The startup payload published to the UI at window creation. -/
structure ResolvedEndpoints where
  baseUrl : Option String
  skillsBaseUrl : Option String
deriving DecidableEq

/-- Outcome of the readiness wait loop, with the discrete elapsed time in
milliseconds at which the outcome was declared. -/
inductive WaitOutcome where
  | failedTimeout (elapsedMs : Nat)
  | ready (elapsedMs : Nat)
deriving DecidableEq

/-- The readiness wait `loop` (lines 341–370): at each iteration, fail
once the elapsed time exceeds 7 s; otherwise sleep 10 ms, probe (taking
`probeDur i` ms), and on success sleep a further 10 ms grace delay before
declaring readiness.  `i` is the attempt index, `elapsed` the discrete
elapsed time; `none` means the fuel ran out mid-loop. -/
def waitLoop (probeDur : Nat → Nat) (rdy : Nat → Bool) :
    Nat → Nat → Nat → Option WaitOutcome
  | 0, _, _ => none
  | fuel + 1, i, elapsed =>
    if TIMEOUT_MS < elapsed then some (.failedTimeout elapsed)
    else
      let elapsed' := elapsed + POLL_MS + probeDur i
      if rdy i then some (.ready (elapsed' + POLL_MS))
      else waitLoop probeDur rdy fuel (i + 1) elapsed'

/-- The discrete time consumed by `n` consecutive wait-loop iterations
starting at attempt `i`: each iteration sleeps `POLL_MS` and then probes,
taking `pd` of that attempt. -/
def sumSteps (pd : Nat → Nat) : Nat → Nat → Nat
  | _, 0 => 0
  | i, n + 1 => POLL_MS + pd i + sumSteps pd (i + 1) n

/-- Result of the setup task: either the application exited (readiness
timeout: modal dialog, then `app.exit(1)`), or the window was built with
the given endpoints and `ServerState` was managed holding the given
handle.  `spawns` counts the `spawn_sidecar` invocations performed. -/
inductive LaunchResult where
  | exited (code spawns failTimeMs : Nat)
  | launched (handle : Option SidecarHandle) (endpoints : ResolvedEndpoints)
      (spawns : Nat)
deriving DecidableEq

/-- `format!("http://127.0.0.1:{value}")`. -/
def fmtBase (p : Nat) : String := "http://127.0.0.1:" ++ toString p

/-- The async setup task of `run` (lines 307–426): resolve the primary
port, decide whether to spawn, resolve the skills port, spawn and await
readiness when needed, then publish the endpoints and manage the handle.
`none` models only fuel exhaustion of the embedded loops. -/
def runSetup (env : LaunchEnv) (fuel : Nat) : Option LaunchResult :=
  let port := resolvedPrimaryPort env
  let shouldSpawn :=
    match port with
    | some p => !isServerRunning env.net p
    | none => false
  match resolveSkillsPort env.skillsPortOverride env.net env.alloc
      (allocIndexAfterPrimary env) port shouldSpawn fuel with
  | none => none
  | some (skillsPort, _) =>
    let endpoints : ResolvedEndpoints :=
      { baseUrl := env.baseOverride.or (port.map fmtBase)
        skillsBaseUrl := env.skillsBaseOverride.or (some (fmtBase skillsPort)) }
    if shouldSpawn then
      match port with
      | some p =>
        match waitLoop env.probeDur env.readyAt fuel 0 0 with
        | none => none
        | some (.failedTimeout t) => some (.exited 1 1 t)
        | some (.ready _) =>
          some (.launched (some ⟨p, skillsPort⟩) endpoints 1)
      | none => none
    else some (.launched none endpoints 0)

/-! ## CommandSurface (`kill_sidecar`, `get_logs`, `copy_logs_to_clipboard`) -/

/-- A `Mutex`-guarded cell: `poisoned` says whether `lock()` fails. -/
structure MutexState (α : Type) where
  poisoned : Bool
  contents : α
deriving DecidableEq

/-- The managed application state the commands consult: `try_state`
returns `none` when the corresponding state was never managed.
`clipboardErr` is the outcome the clipboard collaborator would give a
write (`none` = success). -/
structure AppState where
  serverState : Option (MutexState (Option SidecarHandle))
  logState : Option (MutexState (List String))
  clipboardErr : Option String
deriving DecidableEq

/-- How a command invocation ends: a returned value, or a Rust panic
(`expect`). -/
inductive CmdResult (α : Type) where
  | ret (val : α)
  | panicked (msg : String)
deriving DecidableEq

/-- `kill_sidecar`: missing state and missing handle are diagnostic-only
no-ops; a poisoned lock panics via
`.lock().expect("Failed to acquire mutex lock")`; otherwise the handle is
taken (cleared) and killed.  The middle component collects the `println!`
diagnostics. -/
def killSidecar (s : AppState) : CmdResult Unit × List String × AppState :=
  match s.serverState with
  | none => (.ret (), ["Server not running"], s)
  | some m =>
    if m.poisoned then (.panicked "Failed to acquire mutex lock", [], s)
    else
      match m.contents with
      | none => (.ret (), ["Server state missing"], s)
      | some _ =>
        (.ret (), ["Killed server"],
          { s with serverState := some { poisoned := m.poisoned, contents := none } })

/-- `get_logs`: joined snapshot of the log collection; missing state and
a poisoned lock are returned to the caller as `Err` strings. -/
def getLogs (s : AppState) : CmdResult (Except String String) × AppState :=
  match s.logState with
  | none => (.ret (.error "Log state not found"), s)
  | some m =>
    if m.poisoned then (.ret (.error "Failed to acquire log lock"), s)
    else (.ret (.ok (String.join m.contents)), s)

/-- `copy_logs_to_clipboard`: like `get_logs`, plus the clipboard write,
whose failure is also returned as an `Err` string. -/
def copyLogsToClipboard (s : AppState) :
    CmdResult (Except String Unit) × AppState :=
  match s.logState with
  | none => (.ret (.error "Log state not found"), s)
  | some m =>
    if m.poisoned then (.ret (.error "Failed to acquire log lock"), s)
    else
      match s.clipboardErr with
      | some e => (.ret (.error ("Failed to copy to clipboard: " ++ e)), s)
      | none => (.ret (.ok ()), s)

/-! ## Concrete fixtures used by the closed witness theorems -/

/-- A launch environment whose resolved primary port 4096 already has a
listener before any spawn is attempted. -/
def envAlready : LaunchEnv :=
  { baseOverride := none, skillsBaseOverride := none,
    portOverride := some 4096, skillsPortOverride := none,
    net := fun q => q == 4096, alloc := fun _ => 0,
    probeDur := fun _ => 0, readyAt := fun _ => false }

/-- A launch environment with no listener anywhere and a spawned server
that never becomes ready. -/
def envDead : LaunchEnv :=
  { baseOverride := none, skillsBaseOverride := none,
    portOverride := some 4096, skillsPortOverride := some 5000,
    net := fun _ => false, alloc := fun _ => 0,
    probeDur := fun _ => 0, readyAt := fun _ => false }

/-- An application state holding a live handle under a healthy lock. -/
def stLive : AppState :=
  { serverState :=
      some { poisoned := false, contents := some { port := 4096, skillsPort := 4097 } },
    logState := none, clipboardErr := none }

/-- An application state whose server-state and log-state locks are both
poisoned. -/
def stPoisoned : AppState :=
  { serverState := some { poisoned := true, contents := none },
    logState := some { poisoned := true, contents := [] },
    clipboardErr := none }

/-- An environment with only the raw config-content override set. -/
def envRawConfig : String → Option String := fun k =>
  if k = "OPENCODE_CONFIG_CONTENT" then some "x" else none

/-- An environment with only a dangling plugin-path override set. -/
def envDanglingPlugin : String → Option String := fun k =>
  if k = "OPENCODE_DESKTOP_PLUGIN_PATH" then some "/nope" else none

/-- A filesystem with one built plugin artifact below ancestor `/a`. -/
def fsDist : Fs :=
  { isFile := fun s => s = "/a/orchestra/dist/index.js",
    currentDirAncestors := some ["/b", "/a"],
    canonicalize := fun s => some s }

/-! ## LogCollector lemmas -/

/-- The eviction loop, given enough fuel, drops exactly the surplus front
entries. -/
theorem evictLoop_eq : ∀ (fuel : Nat) (l : List String), l.length ≤ fuel →
    evictLoop fuel l = l.drop (l.length - MAX_LOG_ENTRIES) := by
  intro fuel
  induction fuel with
  | zero =>
    intro l h
    have hl : l = [] := List.eq_nil_of_length_eq_zero (Nat.le_zero.mp h)
    subst hl
    simp [evictLoop]
  | succ n ih =>
    intro l h
    rw [evictLoop]
    by_cases hl : l.length > MAX_LOG_ENTRIES
    · rw [if_pos hl]
      rcases l with _ | ⟨a, t⟩
      · simp at hl
      · have ht : t.length ≤ n := by simp at h; omega
        rw [List.tail_cons, ih t ht]
        have he : (a :: t).length - MAX_LOG_ENTRIES = (t.length - MAX_LOG_ENTRIES) + 1 := by
          simp only [List.length_cons, MAX_LOG_ENTRIES] at hl ⊢
          omega
        rw [he, List.drop_succ_cons]
    · rw [if_neg hl]
      have h0 : l.length - MAX_LOG_ENTRIES = 0 := by omega
      rw [h0, List.drop_zero]

/-- One pump step keeps the suffix of the grown collection. -/
theorem pumpAppend_eq (logs : List String) (entry : String) :
    pumpAppend logs entry =
      (logs ++ [entry]).drop ((logs ++ [entry]).length - MAX_LOG_ENTRIES) :=
  evictLoop_eq _ _ le_rfl

/-- Running the pump over a whole emission sequence keeps exactly the
suffix past the first `length - 200` entries. -/
theorem pumpRun_drop (entries : List String) :
    pumpRun entries = entries.drop (entries.length - MAX_LOG_ENTRIES) := by
  induction entries using List.reverseRecOn with
  | nil => rfl
  | append_singleton ls x ih =>
    have hfold : pumpRun (ls ++ [x]) = pumpAppend (pumpRun ls) x := by
      simp [pumpRun, List.foldl_append]
    rw [hfold, ih, pumpAppend_eq]
    have h1 : ((ls.drop (ls.length - MAX_LOG_ENTRIES)) ++ [x]).length - MAX_LOG_ENTRIES
        ≤ (ls.drop (ls.length - MAX_LOG_ENTRIES)).length := by
      simp only [List.length_append, List.length_cons, List.length_nil, List.length_drop,
        MAX_LOG_ENTRIES]
      omega
    have h2 : (ls ++ [x]).length - MAX_LOG_ENTRIES ≤ ls.length := by
      simp only [List.length_append, List.length_cons, List.length_nil, MAX_LOG_ENTRIES]
      omega
    rw [List.drop_append_of_le_length h1, List.drop_append_of_le_length h2,
      List.drop_drop]
    have he : (ls.length - MAX_LOG_ENTRIES) +
        (((ls.drop (ls.length - MAX_LOG_ENTRIES)) ++ [x]).length - MAX_LOG_ENTRIES)
        = (ls ++ [x]).length - MAX_LOG_ENTRIES := by
      simp only [List.length_append, List.length_cons, List.length_nil, List.length_drop,
        MAX_LOG_ENTRIES]
      omega
    rw [he]

/-- C2: for every sequence of `N ≥ 0` log lines appended by the output
pump, the collection's length is `min N 200` and its content equals the
last `min N 200` appended entries in their original append order (FIFO
eviction of the oldest entry once capacity 200 is exceeded). -/
theorem log_fifo_law (entries : List String) :
    (pumpRun entries).length = min entries.length MAX_LOG_ENTRIES ∧
    pumpRun entries = entries.drop (entries.length - MAX_LOG_ENTRIES) := by
  refine ⟨?_, pumpRun_drop entries⟩
  rw [pumpRun_drop, List.length_drop]
  simp only [MAX_LOG_ENTRIES]
  omega

/-! ## PortResolver lemmas -/

/-- The ephemeral retry loop never returns the primary port. -/
theorem allocUntilNe_ne (alloc : Nat → Nat) (p : Nat) :
    ∀ (fuel k sp k' : Nat),
      allocUntilNe alloc (some p) fuel k = some (sp, k') → sp ≠ p := by
  intro fuel
  induction fuel with
  | zero => intro k sp k' h; simp [allocUntilNe] at h
  | succ n ih =>
    intro k sp k' h
    simp only [allocUntilNe] at h
    split at h
    · exact ih _ _ _ h
    · rename_i hne
      simp only [Option.some.injEq, Prod.mk.injEq] at h
      obtain ⟨rfl, rfl⟩ := h
      intro hc
      exact hne (by simp [hc])

/-- C4: whenever a spawn occurs and both ports are chosen locally (no
skills-port override), the resolved skills port differs from the resolved
primary port: on a conflict with the default 4097 (equal to the primary
port or already listening) fresh ephemeral ports are drawn until one
differs from the primary port. -/
theorem skills_port_distinct (skillsOv : Option Nat) (net : Nat → Bool)
    (alloc : Nat → Nat) (k fuel p sp k' : Nat)
    (hov : skillsOv = none)
    (hres : resolveSkillsPort skillsOv net alloc k (some p) true fuel
      = some (sp, k')) :
    sp ≠ p := by
  subst hov
  simp only [resolveSkillsPort, Option.isNone_none, Bool.and_self, if_true,
    ite_true] at hres
  split at hres
  · exact allocUntilNe_ne alloc p fuel k sp k' hres
  · rename_i hcon
    simp only [Option.some.injEq, Prod.mk.injEq] at hres
    obtain ⟨rfl, rfl⟩ := hres
    intro hc
    exact hcon (by simp [hc])

/-- Witness for C4: with primary port 4097 (colliding with the default
skills port) and an allocator handing out 5000, resolution picks 5000. -/
theorem skills_port_distinct_witness :
    resolveSkillsPort none (fun _ => false) (fun _ => 5000) 0 (some 4097) true 5
      = some (5000, 1) ∧
    (5000 : Nat) ≠ 4097 :=
  ⟨by decide,
    skills_port_distinct none (fun _ => false) (fun _ => 5000) 0 5 4097 5000 1 rfl
      (by decide)⟩

/-! ## Readiness wait-loop lemmas -/

/-- If no probe ever succeeds, the wait loop can only end in
`failedTimeout`, strictly after 7 s and at most one poll interval plus one
probe attempt past 7 s. -/
theorem waitLoop_timeout_aux (pd : Nat → Nat) (rdy : Nat → Bool) (D : Nat)
    (hn : ∀ i, rdy i = false) (hd : ∀ i, pd i ≤ D) :
    ∀ (fuel i e : Nat), e ≤ TIMEOUT_MS + POLL_MS + D →
      ∀ o, waitLoop pd rdy fuel i e = some o →
        ∃ t, o = .failedTimeout t ∧ TIMEOUT_MS < t ∧ t ≤ TIMEOUT_MS + POLL_MS + D := by
  intro fuel
  induction fuel with
  | zero => intro i e he o h; simp [waitLoop] at h
  | succ n ih =>
    intro i e he o h
    simp only [waitLoop] at h
    split at h
    · rename_i ht
      cases h
      exact ⟨e, rfl, ht, he⟩
    · rename_i ht
      rw [hn i] at h
      simp only [Bool.false_eq_true, if_false] at h
      have hb : e + POLL_MS + pd i ≤ TIMEOUT_MS + POLL_MS + D := by
        have := hd i
        simp only [TIMEOUT_MS, POLL_MS] at *
        omega
      exact ih (i + 1) _ hb o h

/-- One unfolding step of `sumSteps`. -/
theorem sumSteps_succ (pd : Nat → Nat) (i n : Nat) :
    sumSteps pd i (n + 1) = POLL_MS + pd i + sumSteps pd (i + 1) n := rfl

/-- `sumSteps` at zero iterations. -/
theorem sumSteps_zero (pd : Nat → Nat) (i : Nat) :
    sumSteps pd i 0 = 0 := rfl

/-- A `ready` outcome of the wait loop always stems from the first
successful probe among the attempts performed, and is declared exactly one
extra 10 ms grace delay after that probe completed: the ready time is the
entry elapsed time plus the cumulative duration of attempts `i..j` plus
the trailing `POLL_MS` grace sleep. -/
theorem waitLoop_ready_aux (pd : Nat → Nat) (rdy : Nat → Bool) :
    ∀ (fuel i e t : Nat), waitLoop pd rdy fuel i e = some (.ready t) →
      ∃ j, i ≤ j ∧ rdy j = true ∧
        (∀ j', i ≤ j' → j' < j → rdy j' = false) ∧
        t = e + sumSteps pd i (j - i + 1) + POLL_MS := by
  intro fuel
  induction fuel with
  | zero => intro i e t h; simp [waitLoop] at h
  | succ n ih =>
    intro i e t h
    simp only [waitLoop] at h
    split at h
    · cases h
    · rename_i ht
      by_cases hr : rdy i = true
      · rw [hr] at h
        simp only [if_true, Option.some.injEq, WaitOutcome.ready.injEq] at h
        refine ⟨i, le_rfl, hr,
          fun j' h1 h2 => absurd (lt_of_le_of_lt h1 h2) (lt_irrefl i), ?_⟩
        have hs : i - i + 1 = 0 + 1 := by omega
        rw [hs, sumSteps_succ, sumSteps_zero]
        omega
      · rw [Bool.not_eq_true] at hr
        rw [hr] at h
        simp only [Bool.false_eq_true, if_false] at h
        obtain ⟨j, hij, hj, hprev, hteq⟩ := ih (i + 1) _ t h
        refine ⟨j, by omega, hj, ?_, ?_⟩
        · intro j' h1 h2
          rcases Nat.eq_or_lt_of_le h1 with h3 | h3
          · rw [← h3]; exact hr
          · exact hprev j' h3 h2
        · have hidx : j - i + 1 = (j - (i + 1) + 1) + 1 := by omega
          rw [hidx, sumSteps_succ]
          omega

/-- C9: when the readiness probe first succeeds during the awaiting loop,
readiness is not declared immediately: the Ready time equals the loop's
actual elapsed time at the completion of the first successful probe
(entry elapsed time `e` plus the cumulative poll sleeps and probe
durations of attempts `i..j`) plus one always-inserted extra 10 ms grace
delay. -/
theorem ready_grace_delay (pd : Nat → Nat) (rdy : Nat → Bool)
    (fuel i e t : Nat)
    (h : waitLoop pd rdy fuel i e = some (.ready t)) :
    ∃ j, i ≤ j ∧ rdy j = true ∧
      (∀ j', i ≤ j' → j' < j → rdy j' = false) ∧
      t = e + sumSteps pd i (j - i + 1) + POLL_MS :=
  waitLoop_ready_aux pd rdy fuel i e t h

/-- Witness for C9: with instant probes first succeeding at attempt 2, the
loop reports ready at 40 ms: 30 ms elapsed at the successful probe
(`sumSteps` over attempts 0..2) plus the 10 ms grace delay. -/
theorem ready_grace_delay_witness :
    waitLoop (fun _ => 0) (fun i => i == 2) 100 0 0 = some (.ready 40) ∧
    (∃ j, 0 ≤ j ∧ (fun i : Nat => i == 2) j = true ∧
      (∀ j', 0 ≤ j' → j' < j → (fun i : Nat => i == 2) j' = false) ∧
      40 = 0 + sumSteps (fun _ => 0) 0 (j - 0 + 1) + POLL_MS) :=
  ⟨by decide, ready_grace_delay (fun _ => 0) (fun i => i == 2) 100 0 0 40 (by decide)⟩

/-! ## Supervisor flow theorems -/

/-- C1: if the readiness probe succeeds against the resolved primary port
before any spawn is attempted, no child process is spawned and no
SidecarHandle is ever created for this launch: the supervisor stores an
absent handle (spawn count 0) and proceeds directly to publishing the
endpoints. -/
theorem already_running_no_spawn (env : LaunchEnv) (p fuel : Nat)
    (hb : env.baseOverride = none)
    (hp : resolvedPrimaryPort env = some p)
    (hrun : isServerRunning env.net p = true) :
    runSetup env fuel =
      some (.launched none
        { baseUrl := some (fmtBase p)
          skillsBaseUrl := env.skillsBaseOverride.or
            (some (fmtBase (env.skillsPortOverride.getD DEFAULT_SKILLS_PORT))) }
        0) := by
  unfold runSetup
  rw [hp]
  simp only [hrun, Bool.not_true]
  simp [resolveSkillsPort, hb]

/-- Witness for C1: a listener on the resolved port 4096 short-circuits
the spawn and publishes the endpoints with an absent handle. -/
theorem already_running_no_spawn_witness :
    envAlready.baseOverride = none ∧
    resolvedPrimaryPort envAlready = some 4096 ∧
    isServerRunning envAlready.net 4096 = true ∧
    runSetup envAlready 10 =
      some (.launched none
        { baseUrl := some (fmtBase 4096)
          skillsBaseUrl := envAlready.skillsBaseOverride.or
            (some (fmtBase (envAlready.skillsPortOverride.getD DEFAULT_SKILLS_PORT))) }
        0) :=
  ⟨rfl, by decide, by decide,
    already_running_no_spawn envAlready 4096 10 rfl (by decide) (by decide)⟩

/-- C3: when a spawn occurs and readiness never succeeds, the launch ends
in `app.exit(1)` (non-zero status) with the failure declared strictly
after 7 s of discrete elapsed time and no later than 7 s plus one 10 ms
poll interval plus one probe attempt; the spawn count stays 1, so a failed
launch is never retried automatically. -/
theorem timeout_bounds (env : LaunchEnv) (p fuel D : Nat) (r : LaunchResult)
    (hp : resolvedPrimaryPort env = some p)
    (hrun : isServerRunning env.net p = false)
    (hnready : ∀ i, env.readyAt i = false)
    (hdur : ∀ i, env.probeDur i ≤ D)
    (hres : runSetup env fuel = some r) :
    ∃ t, r = .exited 1 1 t ∧ TIMEOUT_MS < t ∧ t ≤ TIMEOUT_MS + POLL_MS + D := by
  unfold runSetup at hres
  rw [hp] at hres
  simp only [hrun, Bool.not_false] at hres
  rcases hsk : resolveSkillsPort env.skillsPortOverride env.net env.alloc
      (allocIndexAfterPrimary env) (some p) true fuel with _ | ⟨sk, k'⟩
  · rw [hsk] at hres; cases hres
  · rw [hsk] at hres
    simp only [if_true, ite_true] at hres
    rcases hw : waitLoop env.probeDur env.readyAt fuel 0 0 with _ | o
    · rw [hw] at hres; cases hres
    · rw [hw] at hres
      obtain ⟨t, rfl, h1, h2⟩ :=
        waitLoop_timeout_aux env.probeDur env.readyAt D hnready hdur fuel 0 0
          (by simp [TIMEOUT_MS, POLL_MS]) o hw
      simp only [Option.some.injEq] at hres
      exact ⟨t, hres.symm, h1, h2⟩

set_option maxRecDepth 100000 in
/-- Witness for C3: a spawned server that never listens, with instant
probes, fails at exactly 7010 ms with exit code 1 and one spawn. -/
theorem timeout_bounds_witness :
    resolvedPrimaryPort envDead = some 4096 ∧
    isServerRunning envDead.net 4096 = false ∧
    runSetup envDead 1000 = some (.exited 1 1 7010) ∧
    (∃ t, LaunchResult.exited 1 1 7010 = .exited 1 1 t ∧
      TIMEOUT_MS < t ∧ t ≤ TIMEOUT_MS + POLL_MS + 0) :=
  ⟨by decide, by decide, by decide,
    timeout_bounds envDead 4096 1000 0 (.exited 1 1 7010) (by decide) (by decide)
      (fun _ => rfl) (fun _ => Nat.le_refl 0) (by decide)⟩

/-! ## Probe truncation (numerics) -/

/-- C10: ports are handled as 32-bit integers, but the readiness probe
truncates the port to 16 bits when building the socket address: the probe
connects to `127.0.0.1:(p mod 65536)`, so a port override greater than
65535 makes the probe target a different port than the full value passed
to the spawned child via its `--port` argument. -/
theorem probe_truncates_port (p : Nat) (net : Nat → Bool)
    (hp32 : p < 2 ^ 32) (hgt : 65535 < p) :
    isServerRunning net p = net (p % 65536) ∧
    probedPort p ≠ p ∧
    sidecarPortArg p = "--port=" ++ toString p := by
  refine ⟨rfl, ?_, rfl⟩
  have h : p % 65536 < 65536 := Nat.mod_lt _ (by omega)
  unfold probedPort
  omega

/-- Witness for C10: port 70000 is probed as 70000 mod 65536 = 4464 while
the child is handed `--port=70000`. -/
theorem probe_truncates_port_witness :
    (70000 : Nat) < 2 ^ 32 ∧ (65535 : Nat) < 70000 ∧
    (isServerRunning (fun _ => false) 70000 = (fun _ : Nat => false) (70000 % 65536) ∧
     probedPort 70000 ≠ 70000 ∧
     sidecarPortArg 70000 = "--port=" ++ toString 70000) :=
  ⟨by decide, by decide,
    probe_truncates_port 70000 (fun _ => false) (by decide) (by decide)⟩

/-! ## CommandSurface theorems -/

/-- C5: kill is idempotent: with the supervisor state present and its lock
healthy, the first kill clears the handle, and a second kill in succession
is a diagnostic-only no-op that does not error; an absent supervisor state
is likewise a benign no-op. -/
theorem kill_idempotent (s : AppState) (m : MutexState (Option SidecarHandle))
    (hs : s.serverState = some m) (hp : m.poisoned = false) :
    (killSidecar s).1 = .ret () ∧
    ((killSidecar s).2.2).serverState = some { poisoned := false, contents := none } ∧
    killSidecar ((killSidecar s).2.2) =
      (.ret (), ["Server state missing"], (killSidecar s).2.2) ∧
    ∀ s' : AppState, s'.serverState = none →
      killSidecar s' = (.ret (), ["Server not running"], s') := by
  obtain ⟨pb, c⟩ := m
  simp only at hp
  subst hp
  refine ⟨?_, ?_, ?_, ?_⟩
  · cases c <;> simp [killSidecar, hs]
  · cases c <;> simp [killSidecar, hs]
  · cases c <;> simp [killSidecar, hs]
  · intro s' h'
    simp [killSidecar, h']

/-- Witness for C5: double kill on a live handle under a healthy lock. -/
theorem kill_idempotent_witness :
    stLive.serverState
      = some { poisoned := false, contents := some { port := 4096, skillsPort := 4097 } } ∧
    (killSidecar stLive).1 = .ret () ∧
    ((killSidecar stLive).2.2).serverState
      = some { poisoned := false, contents := none } ∧
    killSidecar ((killSidecar stLive).2.2)
      = (.ret (), ["Server state missing"], (killSidecar stLive).2.2) :=
  ⟨rfl, (kill_idempotent stLive _ rfl rfl).1, (kill_idempotent stLive _ rfl rfl).2.1,
    (kill_idempotent stLive _ rfl rfl).2.2.1⟩

/-- C6 counterexample: a lock-acquisition failure on the shared state is
NOT command-local for every command: `kill_sidecar` panics through
`.lock().expect("Failed to acquire mutex lock")` instead of reporting a
failure to its caller. -/
theorem kill_lock_failure_not_command_local :
    (killSidecar stPoisoned).1 = .panicked "Failed to acquire mutex lock" ∧
    (killSidecar stPoisoned).1 ≠ .ret () := by
  decide

/-- C6 (amended): for get-logs and copy-logs, a lock-acquisition failure
on the shared log state is reported back to the caller as a descriptive,
command-local failure that leaves the state untouched; for kill, a
lock-acquisition failure on the server state panics (is process-fatal)
rather than being reported, though it too leaves supervisor state
untouched. -/
theorem lock_failure_command_local (s : AppState)
    (mS : MutexState (Option SidecarHandle)) (mL : MutexState (List String))
    (hS : s.serverState = some mS) (hSp : mS.poisoned = true)
    (hL : s.logState = some mL) (hLp : mL.poisoned = true) :
    getLogs s = (.ret (.error "Failed to acquire log lock"), s) ∧
    copyLogsToClipboard s = (.ret (.error "Failed to acquire log lock"), s) ∧
    (killSidecar s).1 = .panicked "Failed to acquire mutex lock" ∧
    (killSidecar s).2.2 = s := by
  refine ⟨?_, ?_, ?_, ?_⟩ <;>
    simp [getLogs, copyLogsToClipboard, killSidecar, hS, hL, hSp, hLp]

/-- Witness for the amended C6 on the doubly-poisoned fixture state. -/
theorem lock_failure_command_local_witness :
    stPoisoned.serverState = some { poisoned := true, contents := none } ∧
    stPoisoned.logState = some { poisoned := true, contents := [] } ∧
    getLogs stPoisoned = (.ret (.error "Failed to acquire log lock"), stPoisoned) ∧
    copyLogsToClipboard stPoisoned
      = (.ret (.error "Failed to acquire log lock"), stPoisoned) ∧
    (killSidecar stPoisoned).1 = .panicked "Failed to acquire mutex lock" :=
  ⟨rfl, rfl, (lock_failure_command_local stPoisoned _ _ rfl rfl rfl rfl).1,
    (lock_failure_command_local stPoisoned _ _ rfl rfl rfl rfl).2.1,
    (lock_failure_command_local stPoisoned _ _ rfl rfl rfl rfl).2.2.1⟩

/-! ## ConfigOverrideBuilder theorems -/

/-- C7: if the raw config-content override environment variable is set
(non-empty after trimming), the config-override builder returns absent,
regardless of whether a plugin artifact is discoverable. -/
theorem config_override_suppresses (env : String → Option String) (fs : Fs)
    (v : String) (h : envString env "OPENCODE_CONFIG_CONTENT" = some v) :
    buildOpencodeConfigContent env fs = none := by
  unfold buildOpencodeConfigContent
  rw [h]
  rfl

/-- Witness for C7: with the raw override set, the builder yields absent
on a filesystem where a plugin artifact IS discoverable. -/
theorem config_override_suppresses_witness :
    envString envRawConfig "OPENCODE_CONFIG_CONTENT" = some "x" ∧
    buildOpencodeConfigContent (fun _ => none) fsDist ≠ none ∧
    buildOpencodeConfigContent envRawConfig fsDist = none :=
  ⟨by decide, by decide,
    config_override_suppresses envRawConfig fsDist "x" (by decide)⟩

/-- C8: if the plugin-path override points at a path that is not an
existing file, plugin discovery does not fail: it falls through to probing
the first 6 ancestors of the current working directory, preferring the
built artifact over the source artifact at each level, and returns absent
only if none is found. -/
theorem plugin_override_fallthrough (env : String → Option String) (fs : Fs)
    (v : String) (dirs : List String)
    (hov : envString env "OPENCODE_DESKTOP_PLUGIN_PATH" = some v)
    (hnf : fs.isFile v = false)
    (hcd : fs.currentDirAncestors = some dirs) :
    findOrchestratorPluginPath env fs = (dirs.take 6).findSome? (ancestorProbe fs) ∧
    (findOrchestratorPluginPath env fs = none ↔
      ∀ d ∈ dirs.take 6,
        fs.isFile (distPath d) = false ∧ fs.isFile (srcPath d) = false) ∧
    ∀ d, fs.isFile (distPath d) = true → ancestorProbe fs d = some (distPath d) := by
  have h1 : findOrchestratorPluginPath env fs
      = (dirs.take 6).findSome? (ancestorProbe fs) := by
    unfold findOrchestratorPluginPath
    rw [hcd, hov]
    simp [hnf]
  refine ⟨h1, ?_, ?_⟩
  · rw [h1, List.findSome?_eq_none_iff]
    constructor
    · intro h d hd
      have hdd := h d hd
      unfold ancestorProbe at hdd
      constructor
      · by_cases hf : fs.isFile (distPath d) = true
        · rw [if_pos hf] at hdd; cases hdd
        · simpa using hf
      · by_cases hf : fs.isFile (srcPath d) = true
        · by_cases hg : fs.isFile (distPath d) = true
          · rw [if_pos hg] at hdd; cases hdd
          · rw [if_neg hg, if_pos hf] at hdd; cases hdd
        · simpa using hf
    · intro h d hd
      obtain ⟨ha, hb'⟩ := h d hd
      simp [ancestorProbe, ha, hb']
  · intro d hd
    simp [ancestorProbe, hd]

/-- Witness for C8: a dangling override `/nope` falls through to the
ancestor search, which finds the built artifact below `/a`. -/
theorem plugin_override_fallthrough_witness :
    envString envDanglingPlugin "OPENCODE_DESKTOP_PLUGIN_PATH" = some "/nope" ∧
    fsDist.isFile "/nope" = false ∧
    fsDist.currentDirAncestors = some ["/b", "/a"] ∧
    findOrchestratorPluginPath envDanglingPlugin fsDist
      = (["/b", "/a"].take 6).findSome? (ancestorProbe fsDist) ∧
    findOrchestratorPluginPath envDanglingPlugin fsDist
      = some "/a/orchestra/dist/index.js" :=
  ⟨by decide, by decide, rfl,
    (plugin_override_fallthrough envDanglingPlugin fsDist "/nope" ["/b", "/a"]
      (by decide) (by decide) rfl).1,
    by decide⟩

end OpenOrchestra
